import Mathlib

/-
  Verification development for the simulation core of the "Bastroblasto"
  asteroid-shooter (src/src/main.rs).

  Shallow embedding conventions:
  * `f32` quantities that the code only adds, subtracts, multiplies and
    compares are embedded as `ℚ` (exact, decidable), so concrete runs of the
    embedded code can be settled by `decide`.
  * The rock-rock elastic resolution calls `Vec2::normalize`, i.e. a real
    square root, so that part of the code is embedded over `ℝ` with
    `Real.sqrt` (`namespace Elastic`).
  * `std::time::Duration` / `Instant` arithmetic is embedded as `ℕ`
    (`Duration::checked_sub` is `Option`-valued truncated subtraction,
    `Instant::saturating_duration_since` is `ℕ` truncated subtraction).
  * Bevy `Commands` (entity spawning/despawning) are deferred: they are
    queued during a system's run and applied only after the system's pass
    finishes, so queries iterated inside a pass still see every entity that
    was alive when the pass started.  The shot-rock pass is therefore
    embedded as a fold over all (shot, rock) index pairs of the lists that
    were alive at the start of the pass, accumulating the score / kill-count
    increments and the queued despawn commands.
-/

namespace Bastro

/-! ## Game constants (src/src/main.rs, lines 6-28) -/

/-- `const PLAYER_BBOX: f32 = 12.0` -/
def PLAYER_BBOX : ℚ := 12

/-- `const ROCK_BBOX: f32 = 12.0` -/
def ROCK_BBOX : ℚ := 12

/-- `const SHOT_BBOX: f32 = 6.0` -/
def SHOT_BBOX : ℚ := 6

/-- `const PLAYER_SHOT_TIME: Duration = Duration::from_millis(500)`,
embedded in milliseconds. -/
def PLAYER_SHOT_TIME : ℕ := 500

/-- `const SHOT_TTL: Duration = Duration::from_secs(2)`, in milliseconds. -/
def SHOT_TTL : ℕ := 2000

/-- 2D vectors with exact coordinates (embedding of `glam::Vec2` where the
code only adds, subtracts, multiplies and compares coordinates). -/
abbrev Vec2 := ℚ × ℚ

/-! ## Geometry helpers -/

/-- `Vec2::distance_squared`: squared Euclidean distance between two points. -/
def distance_squared (pa pb : Vec2) : ℚ :=
  (pa.1 - pb.1) ^ 2 + (pa.2 - pb.2) ^ 2

/-- `fn test_hit(pa: Vec2, ra: f32, pb: Vec2, rb: f32) -> bool`
(main.rs:129-132): `pa.distance_squared(pb) < (ra + rb).powi(2)`. -/
def test_hit (pa : Vec2) (ra : ℚ) (pb : Vec2) (rb : ℚ) : Prop :=
  distance_squared pa pb < (ra + rb) ^ 2

instance (pa : Vec2) (ra : ℚ) (pb : Vec2) (rb : ℚ) :
    Decidable (test_hit pa ra pb rb) :=
  inferInstanceAs (Decidable (distance_squared pa pb < (ra + rb) ^ 2))

/-- One coordinate of `fn wrap_actor_position` (main.rs:137-151): with
`bound = s / 2`, if `x >= bound` then `x - s`, else if `x < -bound` then
`x + s`, else `x`. -/
def wrap_coord (x s : ℚ) : ℚ :=
  if x ≥ s / 2 then x - s
  else if x < -(s / 2) then x + s
  else x

/-- `fn wrap_actor_position(pos, sx, sy)` applied to the x and y coordinates
independently (the z coordinate of the `Vec3` is never touched). -/
def wrap_actor_position (pos : Vec2) (sx sy : ℚ) : Vec2 :=
  (wrap_coord pos.1 sx, wrap_coord pos.2 sy)

/-! ## Shot lifetime (`fn update_shot_ttl`, main.rs:393-404) -/

/-- One tick of `update_shot_ttl` for a single shot: `shot.ttl.checked_sub(dt)`
is `some (ttl - dt)` when `dt ≤ ttl` (the shot survives with the reduced
lifetime) and `none` when `dt > ttl` (the entity is despawned). -/
def update_shot_ttl (ttl dt : ℕ) : Option ℕ :=
  if dt ≤ ttl then some (ttl - dt) else none

/-! ## Weapon cooldown (`fn control`, main.rs:340-367) -/

/-- The fire gate of `fn control`, on a tick where the fire key is pressed and
`time.last_update()` is available: spawn iff
`now.saturating_duration_since(last_shot_time) > PLAYER_SHOT_TIME`
(`ℕ` subtraction is saturating), and on a spawn set `last_shot_time = now`.
Returns (spawned?, new `last_shot_time`). -/
def try_fire (last_shot_time now : ℕ) : Bool × ℕ :=
  if now - last_shot_time > PLAYER_SHOT_TIME then (true, now)
  else (false, last_shot_time)

/-! ## The shot-rock collision pass (`fn rock_shot_collision`, main.rs:424-470) -/

/-- An entity as seen by the collision passes: a position (`Transform`
translation) and its `BBox::bbox_size`.  `RockBundle` spawns rocks with
`bbox_size = ROCK_BBOX`, `ShotBundle` spawns shots with
`bbox_size = SHOT_BBOX`. -/
structure Actor where
  pos : Vec2
  bbox_size : ℚ
deriving DecidableEq

/-- The effects accumulated by one run of the double loop of
`rock_shot_collision`: kill-count increments, score increments, and the
queued (deferred) despawn commands, recorded as indices into the rock and
shot lists that were alive when the pass started. -/
structure PassOut where
  killInc : ℕ
  scoreInc : ℕ
  rockDespawns : List ℕ
  shotDespawns : List ℕ
deriving DecidableEq

/-- The (shot index, rock index) pairs visited by the double loop
`for shot in shots { for rock in rocks { ... } }`, in visiting order. -/
def shot_rock_pairs (nShots nRocks : ℕ) : List (ℕ × ℕ) :=
  (List.range nShots).flatMap fun i => (List.range nRocks).map fun j => (i, j)

/-- The double loop of `rock_shot_collision` (main.rs:437-460): for every
shot (outer) and every rock (inner) alive at the start of the pass, if
`test_hit(rock.pos, rock.bbox_size, shot.pos, shot.bbox_size)` then queue
`despawn(rock)`, queue `despawn(shot)`, `rock_kill_count += 1`,
`score += 1`.  The despawns are deferred Bevy commands, so the iteration
itself never excludes an already-hit shot or rock. -/
def rock_shot_pass (shots rocks : List Actor) : PassOut :=
  (shot_rock_pairs shots.length rocks.length).foldl (fun acc ij =>
    if test_hit (rocks.getD ij.2 ⟨(0, 0), 0⟩).pos (rocks.getD ij.2 ⟨(0, 0), 0⟩).bbox_size
        (shots.getD ij.1 ⟨(0, 0), 0⟩).pos (shots.getD ij.1 ⟨(0, 0), 0⟩).bbox_size then
      ⟨acc.killInc + 1, acc.scoreInc + 1,
       acc.rockDespawns ++ [ij.2], acc.shotDespawns ++ [ij.1]⟩
    else acc) ⟨0, 0, [], []⟩

/-! ## Wave / level state (`struct Level`, main.rs:51-55, 115-120, 153-199) -/

/-- `struct Level { level: u16, rock_kill_count: u16 }`. -/
structure Level where
  level : ℕ
  rock_kill_count : ℕ
deriving DecidableEq

/-- `Level::total_rock_count` (main.rs:115-120): `self.level + 4`. -/
def Level.total_rock_count (self : Level) : ℕ :=
  self.level + 4

/-- The counter part of `fn next_level` (main.rs:153-199):
`rock_kill_count = 0; level += 1` (the function then spawns
`total_rock_count` rocks of the new level). -/
def next_level_counters (lv : Level) : Level :=
  ⟨lv.level + 1, 0⟩

/-- One invocation of the `rock_shot_collision` system acting on the level
counters: run the double loop over the shots and rocks alive at the start of
the pass, add the pass's kill increments, then (main.rs:462-469) if
`rock_kill_count == total_rock_count()` call `next_level`.  Returns the
resulting counters and whether `next_level` was triggered. -/
def rock_shot_collision (shots rocks : List Actor) (lv : Level) : Level × Bool :=
  let lv1 : Level := ⟨lv.level, lv.rock_kill_count + (rock_shot_pass shots rocks).killInc⟩
  if lv1.rock_kill_count = lv1.total_rock_count then (next_level_counters lv1, true)
  else (lv1, false)

/-- Reachability of the wave-controller counters: `setup` ends with
`next_level` applied to the default `Level`, so play starts at
`⟨level := 1, rock_kill_count := 0⟩`; every later tick runs
`rock_shot_collision` on whatever shots and rocks are then alive (their
positions are driven by player input, physics and spawning, so they are
environment inputs here; their `bbox_size` fields are the spawn constants). -/
inductive Reach : Level → Prop where
  | init : Reach ⟨1, 0⟩
  | step (shots rocks : List Actor) (lv : Level) :
      (∀ s ∈ shots, s.bbox_size = SHOT_BBOX) →
      (∀ r ∈ rocks, r.bbox_size = ROCK_BBOX) →
      Reach lv → Reach (rock_shot_collision shots rocks lv).1

/-! ## Rejection-sampled rock placement (`fn next_level`, main.rs:173-182) -/

/-- The bounds of one uniform draw in `next_level`:
`rng.gen_range(-hw..hw)` and `rng.gen_range(-hh..hh)` with
`hw = width * 0.5`, `hh = height * 0.5` (half-open ranges). -/
def in_window (w h : ℚ) (p : Vec2) : Prop :=
  -(w / 2) ≤ p.1 ∧ p.1 < w / 2 ∧ -(h / 2) ≤ p.2 ∧ p.2 < h / 2

instance (w h : ℚ) (p : Vec2) : Decidable (in_window w h p) :=
  inferInstanceAs (Decidable (_ ∧ _ ∧ _ ∧ _))

/-- Acceptance condition of the placement loop: the candidate is kept when
`!test_hit(pos, ROCK_BBOX, exclusion, PLAYER_BBOX * 5.0)`. -/
def placement_ok (p excl : Vec2) : Prop :=
  ¬ test_hit p ROCK_BBOX excl (PLAYER_BBOX * 5)

instance (p excl : Vec2) : Decidable (placement_ok p excl) :=
  inferInstanceAs (Decidable (¬ test_hit p ROCK_BBOX excl (PLAYER_BBOX * 5)))

instance (draws : ℕ → Vec2) (excl : Vec2) :
    DecidablePred (fun n => placement_ok (draws n) excl) :=
  fun _ => inferInstance

/-- The `while { pos = draw(); test_hit(pos, ROCK_BBOX, exclusion,
PLAYER_BBOX*5.0) } {}` loop of `next_level`, run over the stream of
candidate draws the RNG produces: the loop exits at the first accepted draw,
so it returns that draw — provided an accepted draw exists at all. -/
def place_rock (draws : ℕ → Vec2) (excl : Vec2)
    (h : ∃ n, placement_ok (draws n) excl) : Vec2 :=
  draws (Nat.find h)

/-! ## The rock-rock collision pass (`fn rock_rock_collision`, main.rs:473-513)

The pair resolution divides by `Vec2::normalize`'s square root, so this part
of the code is embedded over `ℝ` with `Real.sqrt` (and is therefore not
executable; concrete runs are evaluated by rewriting `Real.sqrt` at perfect
squares). -/

namespace Elastic

/-- 2D vectors over `ℝ` for the elastic-resolution code. -/
abbrev VecR := ℝ × ℝ

/-- `Vec2::dot`. -/
def dotR (u v : VecR) : ℝ := u.1 * v.1 + u.2 * v.2

/-- `Vec2::distance_squared` over `ℝ`. -/
def distance_squaredR (pa pb : VecR) : ℝ :=
  (pa.1 - pb.1) ^ 2 + (pa.2 - pb.2) ^ 2

/-- `fn test_hit` over `ℝ` (only the rock-rock pass needs it there). -/
def test_hitR (pa : VecR) (ra : ℝ) (pb : VecR) (rb : ℝ) : Prop :=
  distance_squaredR pa pb < (ra + rb) ^ 2

noncomputable instance (pa : VecR) (ra : ℝ) (pb : VecR) (rb : ℝ) :
    Decidable (test_hitR pa ra pb rb) :=
  Classical.dec _

/-- `const ROCK_BBOX: f32 = 12.0`, as the `ℝ` constant the pass uses. -/
def ROCK_BBOX : ℝ := 12

/-- `const MIN_DIST: f32 = ROCK_BBOX + 1.0` (main.rs:501). -/
def MIN_DIST : ℝ := ROCK_BBOX + 1

/-- `Vec2::normalize`: `v / v.length()` with `length = sqrt (dot v v)`. -/
noncomputable def normalizeR (v : VecR) : VecR :=
  (Real.sqrt (dotR v v))⁻¹ • v

/-- A rock's mutable state in the pass: the snapshot arrays `rocks_pos` and
`rocks_vel` hold one entry of each per rock. -/
structure RockR where
  pos : VecR
  vel : VecR

/-- `let normal = (rocks_pos[a] - rocks_pos[b]).normalize()` (main.rs:489). -/
noncomputable def collision_normal (a b : RockR) : VecR :=
  normalizeR (a.pos - b.pos)

/-- The body of the overlap branch (main.rs:488-504): exchange the
along-normal velocity components and separate the pair about its midpoint by
`MIN_DIST` on each side.  Returns the updated states of rocks `a` and `b`. -/
noncomputable def resolve_rocks (a b : RockR) : RockR × RockR :=
  let normal := collision_normal a b
  let to_b_vel := dotR a.vel normal • normal
  let to_a_vel := dotR b.vel normal • normal
  let new_b_vel := b.vel - to_a_vel + to_b_vel
  let new_a_vel := a.vel - to_b_vel + to_a_vel
  let middle := (2⁻¹ : ℝ) • (a.pos + b.pos)
  (⟨middle + MIN_DIST • normal, new_a_vel⟩,
   ⟨middle - MIN_DIST • normal, new_b_vel⟩)

/-- The index pairs visited by `for a in 0..n { for b in a+1..n { ... } }`,
in visiting order. -/
def pair_indices (n : ℕ) : List (ℕ × ℕ) :=
  (List.range n).flatMap fun a =>
    ((List.range n).filter fun b => a < b).map fun b => (a, b)

/-- Processing one index pair: detect on (and compute the update from) the
`read` arrays, write the update into the `cur` arrays.  The code has
`read = cur` (the working arrays are read and mutated in place). -/
noncomputable def stepPairAt (read cur : List RockR) (ab : ℕ × ℕ) : List RockR :=
  let ra := read.getD ab.1 ⟨(0, 0), (0, 0)⟩
  let rb := read.getD ab.2 ⟨(0, 0), (0, 0)⟩
  if test_hitR ra.pos ROCK_BBOX rb.pos ROCK_BBOX then
    let res := resolve_rocks ra rb
    (cur.set ab.1 res.1).set ab.2 res.2
  else cur

/-- `fn rock_rock_collision` (main.rs:473-513): snapshot all rock states into
the working arrays, run the pair loop mutating the working arrays in place,
then write the arrays back to the entity store once (the write-back is the
identity here, since the function returns the final arrays). -/
noncomputable def rock_rock_collision (rocks : List RockR) : List RockR :=
  (pair_indices rocks.length).foldl (fun cur ab => stepPairAt cur cur ab) rocks

/-- Modelled from the spec's words (for comparison with the code in C3):
"All pairwise velocity/position updates are computed from a snapshot taken
before any mutation in this pass, then written back once" — every pair is
detected on, and its update computed from, the original snapshot `rocks`;
only the accumulated output is written. -/
noncomputable def rock_rock_collision_spec (rocks : List RockR) : List RockR :=
  (pair_indices rocks.length).foldl (fun cur ab => stepPairAt rocks cur ab) rocks

end Elastic

/-! ## Theorems -/

/-- C6 (corrected): if some draw in the candidate stream lands outside the
exclusion zone, the placement loop terminates at the first such draw, which
it returns. -/
theorem C6_terminates_on_first_accept (draws : ℕ → Vec2) (excl : Vec2)
    (h : ∃ n, placement_ok (draws n) excl) :
    ∃ n, place_rock draws excl h = draws n ∧ placement_ok (draws n) excl ∧
      ∀ m, m < n → ¬ placement_ok (draws m) excl :=
  ⟨Nat.find h, rfl, Nat.find_spec h, fun _ hm => Nat.find_min h hm⟩

/-- C6 witness: a stream whose first draw `(0, 0)` is rejected (it is inside
the exclusion zone around `(0, 0)`) and whose second draw `(100, 0)` is
accepted. -/
theorem C6_terminates_on_first_accept_witness :
    ∃ n, place_rock (fun n => if n = 0 then ((0 : ℚ), 0) else ((100 : ℚ), 0))
        ((0 : ℚ), 0)
        ⟨1, by norm_num [placement_ok, test_hit, distance_squared, ROCK_BBOX,
          PLAYER_BBOX]⟩ =
        (fun n => if n = 0 then ((0 : ℚ), 0) else ((100 : ℚ), 0)) n ∧
      placement_ok ((fun n => if n = 0 then ((0 : ℚ), 0) else ((100 : ℚ), 0)) n)
        ((0 : ℚ), 0) ∧
      ∀ m, m < n →
        ¬ placement_ok ((fun n => if n = 0 then ((0 : ℚ), 0) else ((100 : ℚ), 0)) m)
          ((0 : ℚ), 0) :=
  C6_terminates_on_first_accept _ _ _

/-- C6 counterexample: termination is not guaranteed for arbitrary window
dimensions and exclusion centers.  With a `100 × 100` window and the
exclusion center at the origin (exactly the first-initialization call),
every point of the window is inside the exclusion circle of radius
`PLAYER_BBOX * 5 + ROCK_BBOX = 72`, so every draw is rejected and the loop
can never produce an accepted position. -/
theorem C6_no_universal_termination :
    (∀ p : Vec2, in_window 100 100 p → ¬ placement_ok p ((0 : ℚ), 0)) ∧
    ¬ (∀ (w h : ℚ) (excl : Vec2) (draws : ℕ → Vec2), 0 < w → 0 < h →
        (∀ n, in_window w h (draws n)) → ∃ n, placement_ok (draws n) excl) := by
  have hall : ∀ p : Vec2, in_window 100 100 p → ¬ placement_ok p ((0 : ℚ), 0) := by
    rintro ⟨x, y⟩ ⟨h1, h2, h3, h4⟩ hok
    apply hok
    unfold test_hit distance_squared ROCK_BBOX PLAYER_BBOX
    simp only
    nlinarith [sq_nonneg x, sq_nonneg y,
      (by norm_num at h1 h2 ⊢; constructor <;> linarith :
        -(50 : ℚ) ≤ x ∧ x ≤ 50),
      (by norm_num at h3 h4 ⊢; constructor <;> linarith :
        -(50 : ℚ) ≤ y ∧ y ≤ 50)]
  refine ⟨hall, fun hcl => ?_⟩
  obtain ⟨n, hn⟩ := hcl 100 100 ((0 : ℚ), 0) (fun _ => ((0 : ℚ), 0))
    (by norm_num) (by norm_num)
    (fun _ => by norm_num [in_window])
  exact hall _ (by norm_num [in_window]) hn

/-- C7 (confirmed): every position the placement loop returns is outside the
exclusion zone — it fails the strict circle-overlap test against the
exclusion circle, equivalently its squared distance from the exclusion
center is at least `(exclusion_radius + rock_radius)^2` with
`exclusion_radius = PLAYER_BBOX * 5` and `rock_radius = ROCK_BBOX`. -/
theorem C7_placement_outside_exclusion (draws : ℕ → Vec2) (excl : Vec2)
    (h : ∃ n, placement_ok (draws n) excl) :
    ¬ test_hit (place_rock draws excl h) ROCK_BBOX excl (PLAYER_BBOX * 5) ∧
    distance_squared (place_rock draws excl h) excl ≥
      (PLAYER_BBOX * 5 + ROCK_BBOX) ^ 2 := by
  have hok : placement_ok (place_rock draws excl h) excl := Nat.find_spec h
  refine ⟨hok, ?_⟩
  have := not_lt.mp hok
  calc (PLAYER_BBOX * 5 + ROCK_BBOX) ^ 2
      = (ROCK_BBOX + PLAYER_BBOX * 5) ^ 2 := by ring
    _ ≤ distance_squared (place_rock draws excl h) excl := this

/-- C7 witness: the constant stream at `(72, 0)` with exclusion center
`(0, 0)` is accepted immediately (distance exactly `72`). -/
theorem C7_placement_outside_exclusion_witness :
    ¬ test_hit (place_rock (fun _ => ((72 : ℚ), 0)) ((0 : ℚ), 0)
        ⟨0, by norm_num [placement_ok, test_hit, distance_squared, ROCK_BBOX,
          PLAYER_BBOX]⟩) ROCK_BBOX ((0 : ℚ), 0) (PLAYER_BBOX * 5) ∧
    distance_squared (place_rock (fun _ => ((72 : ℚ), 0)) ((0 : ℚ), 0)
        ⟨0, by norm_num [placement_ok, test_hit, distance_squared, ROCK_BBOX,
          PLAYER_BBOX]⟩) ((0 : ℚ), 0) ≥ (PLAYER_BBOX * 5 + ROCK_BBOX) ^ 2 :=
  C7_placement_outside_exclusion _ _ _

/-- Helper for C9: a single application of `wrap_coord` lands in
`[-s/2, s/2]` whenever the input coordinate is within one full dimension of
that interval. -/
theorem wrap_coord_range (x s : ℚ) (h1 : -(3 * s / 2) ≤ x) (h2 : x < 3 * s / 2) :
    -(s / 2) ≤ wrap_coord x s ∧ wrap_coord x s ≤ s / 2 := by
  unfold wrap_coord
  split_ifs with ha hb
  · constructor <;> linarith
  · constructor <;> linarith
  · constructor <;> linarith

/-- C9 (corrected): the claim holds only for inputs within one full
dimension of the wrapped range.  For every position whose coordinates lie in
`[-3*dim/2, 3*dim/2)`, both coordinates of `wrap_actor_position` lie within
`[-dim/2, dim/2]`, each axis wrapped independently. -/
theorem C9_wrap_in_range (p : Vec2) (sx sy : ℚ)
    (hx1 : -(3 * sx / 2) ≤ p.1) (hx2 : p.1 < 3 * sx / 2)
    (hy1 : -(3 * sy / 2) ≤ p.2) (hy2 : p.2 < 3 * sy / 2) :
    -(sx / 2) ≤ (wrap_actor_position p sx sy).1 ∧
    (wrap_actor_position p sx sy).1 ≤ sx / 2 ∧
    -(sy / 2) ≤ (wrap_actor_position p sx sy).2 ∧
    (wrap_actor_position p sx sy).2 ≤ sy / 2 := by
  have hx := wrap_coord_range p.1 sx hx1 hx2
  have hy := wrap_coord_range p.2 sy hy1 hy2
  exact ⟨hx.1, hx.2, hy.1, hy.2⟩

/-- C9 witness: concrete in-range inputs for `C9_wrap_in_range`. -/
theorem C9_wrap_in_range_witness :
    -((100 : ℚ) / 2) ≤ (wrap_actor_position ((70 : ℚ), (-80 : ℚ)) 100 100).1 ∧
    (wrap_actor_position ((70 : ℚ), (-80 : ℚ)) 100 100).1 ≤ 100 / 2 ∧
    -((100 : ℚ) / 2) ≤ (wrap_actor_position ((70 : ℚ), (-80 : ℚ)) 100 100).2 ∧
    (wrap_actor_position ((70 : ℚ), (-80 : ℚ)) 100 100).2 ≤ 100 / 2 :=
  C9_wrap_in_range ((70 : ℚ), (-80 : ℚ)) 100 100
    (by norm_num) (by norm_num) (by norm_num) (by norm_num)

/-- C9 counterexample: the claim as stated fails for an arbitrary input
position.  At position `(200, 0)` with window `100 × 100`, a single wrap
shifts x by one dimension to `100`, which is still outside `[-50, 50]`. -/
theorem C9_far_position_not_wrapped :
    wrap_actor_position ((200 : ℚ), 0) 100 100 = ((100 : ℚ), 0) ∧
    ¬ ((wrap_actor_position ((200 : ℚ), 0) 100 100).1 ≤ 100 / 2) := by
  have e : wrap_actor_position ((200 : ℚ), 0) 100 100 = ((100 : ℚ), 0) := by
    unfold wrap_actor_position wrap_coord
    rw [if_pos (by norm_num : ((200 : ℚ), (0 : ℚ)).1 ≥ 100 / 2),
      if_neg (by norm_num : ¬ ((200 : ℚ), (0 : ℚ)).2 ≥ 100 / 2),
      if_neg (by norm_num : ¬ ((200 : ℚ), (0 : ℚ)).2 < -(100 / 2))]
    norm_num
  refine ⟨e, ?_⟩
  rw [e]
  norm_num

/-- C4 (corrected): a shot is destroyed in this tick iff the elapsed time
strictly exceeds the remaining lifetime (`Duration::checked_sub` underflows
only for `dt > ttl`); when `dt ≤ ttl` it survives with lifetime `ttl - dt` —
in particular at `dt = ttl` it survives this tick with a zero lifetime and
is destroyed on the next tick with positive elapsed time. -/
theorem C4_destroy_iff_gt (ttl dt : ℕ) :
    (update_shot_ttl ttl dt = none ↔ dt > ttl) ∧
    (dt ≤ ttl → update_shot_ttl ttl dt = some (ttl - dt)) ∧
    (0 < dt → update_shot_ttl 0 dt = none) := by
  unfold update_shot_ttl
  refine ⟨?_, ?_, ?_⟩
  · split_ifs with h
    · simp; omega
    · simp; omega
  · intro h; simp [h]
  · intro h; simp; omega

/-- C4 witness: at `ttl = dt = 5` the shot survives with lifetime `0`, and a
zero-lifetime shot is destroyed by the next tick of elapsed time `5`. -/
theorem C4_destroy_iff_gt_witness :
    (update_shot_ttl 5 5 = none ↔ 5 > 5) ∧
    update_shot_ttl 5 5 = some 0 ∧
    update_shot_ttl 0 5 = none :=
  ⟨(C4_destroy_iff_gt 5 5).1,
   (C4_destroy_iff_gt 5 5).2.1 (by decide),
   (C4_destroy_iff_gt 5 5).2.2 (by decide)⟩

/-- C4 counterexample: with remaining lifetime `5` and elapsed time `5`
(elapsed ≥ remaining), the claim says the shot is destroyed this tick, but
the code keeps it alive with a zero lifetime for one extra tick. -/
theorem C4_equal_ttl_survives :
    (5 : ℕ) ≥ 5 ∧ update_shot_ttl 5 5 = some 0 ∧ update_shot_ttl 5 5 ≠ none := by
  refine ⟨by decide, by decide, by decide⟩

/-- C8 (confirmed): a projectile is spawned on a fire-pressed tick iff
`now - last_shot_time > PLAYER_SHOT_TIME` (strict, with saturating
subtraction), and a successful spawn sets `last_shot_time := now`; hence a
first successful attempt at `t0`, a second attempt at `t1` within the
cooldown window (`t1 - t0 ≤ PLAYER_SHOT_TIME`), and a third at `t2` after
the window (`t2 - t0 > PLAYER_SHOT_TIME`) produce exactly the first and
third projectiles. -/
theorem C8_cooldown_gate (last t0 t1 t2 : ℕ)
    (h0 : t0 - last > PLAYER_SHOT_TIME)
    (h1 : t1 - t0 ≤ PLAYER_SHOT_TIME)
    (h2 : t2 - t0 > PLAYER_SHOT_TIME) :
    (∀ l n, ((try_fire l n).1 = true ↔ n - l > PLAYER_SHOT_TIME) ∧
      ((try_fire l n).1 = true → (try_fire l n).2 = n) ∧
      ((try_fire l n).1 = false → (try_fire l n).2 = l)) ∧
    (try_fire last t0).1 = true ∧
    (try_fire (try_fire last t0).2 t1).1 = false ∧
    (try_fire (try_fire (try_fire last t0).2 t1).2 t2).1 = true := by
  have e0 : try_fire last t0 = (true, t0) := by
    unfold try_fire; rw [if_pos h0]
  have e1 : try_fire t0 t1 = (false, t0) := by
    unfold try_fire; rw [if_neg (by omega)]
  have e2 : try_fire t0 t2 = (true, t2) := by
    unfold try_fire; rw [if_pos h2]
  refine ⟨?_, ?_, ?_, ?_⟩
  · intro l n
    unfold try_fire
    split_ifs with h
    · simpa using h
    · simpa using h
  · rw [e0]
  · rw [e0, e1]
  · rw [e0, e1, e2]

/-- Helper for C3: processing one pair never changes the number of rocks. -/
theorem stepPairAt_length (read cur : List Elastic.RockR) (ab : ℕ × ℕ) :
    (Elastic.stepPairAt read cur ab).length = cur.length := by
  simp only [Elastic.stepPairAt]
  split
  · simp
  · rfl

/-- Helper for C3: the pass writes back exactly one state per rock — it
neither creates nor destroys rocks. -/
theorem rock_rock_collision_length (rocks : List Elastic.RockR) :
    (Elastic.rock_rock_collision rocks).length = rocks.length := by
  unfold Elastic.rock_rock_collision
  generalize Elastic.pair_indices rocks.length = ps
  induction ps generalizing rocks with
  | nil => rfl
  | cons a ps ih =>
      simp only [List.foldl_cons]
      rw [ih]
      exact stepPairAt_length _ _ _

/-- Helper for C3/C5-style concrete runs: `Real.sqrt 100 = 10`. -/
theorem sqrt_hundred : Real.sqrt 100 = 10 := by
  rw [show (100 : ℝ) = 10 ^ 2 by norm_num]
  exact Real.sqrt_sq (by norm_num)

/-- Helper for C3 concrete runs: `Real.sqrt 484 = 22`. -/
theorem sqrt_four_eight_four : Real.sqrt 484 = 22 := by
  rw [show (484 : ℝ) = 22 ^ 2 by norm_num]
  exact Real.sqrt_sq (by norm_num)

/-- Helper for C3: resolving the overlapping rocks at `(0, 0)` and
`(-10, 0)` (both at rest) separates them to `(8, 0)` and `(-18, 0)`. -/
theorem resolve_rocks_AB :
    Elastic.resolve_rocks ⟨((0 : ℝ), 0), (0, 0)⟩ ⟨((-10 : ℝ), 0), (0, 0)⟩ =
      (⟨((8 : ℝ), 0), (0, 0)⟩, ⟨((-18 : ℝ), 0), (0, 0)⟩) := by
  simp only [Elastic.resolve_rocks, Elastic.collision_normal, Elastic.normalizeR,
    Elastic.dotR, Elastic.MIN_DIST, Elastic.ROCK_BBOX, Prod.mk_sub_mk,
    Prod.mk_add_mk, Prod.smul_mk, smul_eq_mul, Prod.mk.injEq,
    Elastic.RockR.mk.injEq]
  norm_num [sqrt_hundred]

/-- Helper for C3: resolving the (newly created) overlap between the moved
rock at `(8, 0)` and the rock at `(30, 0)` moves them to `(6, 0)` and
`(32, 0)`. -/
theorem resolve_rocks_A'C :
    Elastic.resolve_rocks ⟨((8 : ℝ), 0), (0, 0)⟩ ⟨((30 : ℝ), 0), (0, 0)⟩ =
      (⟨((6 : ℝ), 0), (0, 0)⟩, ⟨((32 : ℝ), 0), (0, 0)⟩) := by
  simp only [Elastic.resolve_rocks, Elastic.collision_normal, Elastic.normalizeR,
    Elastic.dotR, Elastic.MIN_DIST, Elastic.ROCK_BBOX, Prod.mk_sub_mk,
    Prod.mk_add_mk, Prod.smul_mk, smul_eq_mul, Prod.mk.injEq,
    Elastic.RockR.mk.injEq]
  norm_num [sqrt_four_eight_four]

/-- Helper for C3, step 1 of the in-place pass (also step 1 of the
snapshot-pure pass): pair `(0, 1)` overlaps and is resolved. -/
theorem rr_step_one :
    Elastic.stepPairAt
      [⟨((0 : ℝ), 0), (0, 0)⟩, ⟨((-10 : ℝ), 0), (0, 0)⟩, ⟨((30 : ℝ), 0), (0, 0)⟩]
      [⟨((0 : ℝ), 0), (0, 0)⟩, ⟨((-10 : ℝ), 0), (0, 0)⟩, ⟨((30 : ℝ), 0), (0, 0)⟩]
      (0, 1) =
      [⟨((8 : ℝ), 0), (0, 0)⟩, ⟨((-18 : ℝ), 0), (0, 0)⟩, ⟨((30 : ℝ), 0), (0, 0)⟩] := by
  simp only [Elastic.stepPairAt, List.getD_cons_zero, List.getD_cons_succ]
  rw [if_pos (by norm_num [Elastic.test_hitR, Elastic.distance_squaredR,
    Elastic.ROCK_BBOX])]
  rw [resolve_rocks_AB]
  simp [List.set_cons_zero, List.set_cons_succ]

/-- Helper for C3, step 2 of the in-place pass: because step 1 moved rock 0
to `(8, 0)`, the working arrays now show pair `(0, 2)` overlapping
(`(30 - 8)^2 = 484 < 576`), and it is resolved from the mutated values. -/
theorem rr_step_two_inplace :
    Elastic.stepPairAt
      [⟨((8 : ℝ), 0), (0, 0)⟩, ⟨((-18 : ℝ), 0), (0, 0)⟩, ⟨((30 : ℝ), 0), (0, 0)⟩]
      [⟨((8 : ℝ), 0), (0, 0)⟩, ⟨((-18 : ℝ), 0), (0, 0)⟩, ⟨((30 : ℝ), 0), (0, 0)⟩]
      (0, 2) =
      [⟨((6 : ℝ), 0), (0, 0)⟩, ⟨((-18 : ℝ), 0), (0, 0)⟩, ⟨((32 : ℝ), 0), (0, 0)⟩] := by
  simp only [Elastic.stepPairAt, List.getD_cons_zero, List.getD_cons_succ]
  rw [if_pos (by norm_num [Elastic.test_hitR, Elastic.distance_squaredR,
    Elastic.ROCK_BBOX])]
  rw [resolve_rocks_A'C]
  simp [List.set_cons_zero, List.set_cons_succ]

/-- Helper for C3, step 3 of the in-place pass: pair `(1, 2)` does not
overlap in the working arrays. -/
theorem rr_step_three_inplace :
    Elastic.stepPairAt
      [⟨((6 : ℝ), 0), (0, 0)⟩, ⟨((-18 : ℝ), 0), (0, 0)⟩, ⟨((32 : ℝ), 0), (0, 0)⟩]
      [⟨((6 : ℝ), 0), (0, 0)⟩, ⟨((-18 : ℝ), 0), (0, 0)⟩, ⟨((32 : ℝ), 0), (0, 0)⟩]
      (1, 2) =
      [⟨((6 : ℝ), 0), (0, 0)⟩, ⟨((-18 : ℝ), 0), (0, 0)⟩, ⟨((32 : ℝ), 0), (0, 0)⟩] := by
  simp only [Elastic.stepPairAt, List.getD_cons_zero, List.getD_cons_succ]
  rw [if_neg (by norm_num [Elastic.test_hitR, Elastic.distance_squaredR,
    Elastic.ROCK_BBOX])]

/-- Helper for C3, step 2 of the snapshot-pure pass: on the original
snapshot, rocks 0 and 2 are `30` apart (`900 ≥ 576`), so pair `(0, 2)` is
not resolved. -/
theorem rr_step_two_spec :
    Elastic.stepPairAt
      [⟨((0 : ℝ), 0), (0, 0)⟩, ⟨((-10 : ℝ), 0), (0, 0)⟩, ⟨((30 : ℝ), 0), (0, 0)⟩]
      [⟨((8 : ℝ), 0), (0, 0)⟩, ⟨((-18 : ℝ), 0), (0, 0)⟩, ⟨((30 : ℝ), 0), (0, 0)⟩]
      (0, 2) =
      [⟨((8 : ℝ), 0), (0, 0)⟩, ⟨((-18 : ℝ), 0), (0, 0)⟩, ⟨((30 : ℝ), 0), (0, 0)⟩] := by
  simp only [Elastic.stepPairAt, List.getD_cons_zero, List.getD_cons_succ]
  rw [if_neg (by norm_num [Elastic.test_hitR, Elastic.distance_squaredR,
    Elastic.ROCK_BBOX])]

/-- Helper for C3, step 3 of the snapshot-pure pass: on the original
snapshot, rocks 1 and 2 are `40` apart, so pair `(1, 2)` is not resolved. -/
theorem rr_step_three_spec :
    Elastic.stepPairAt
      [⟨((0 : ℝ), 0), (0, 0)⟩, ⟨((-10 : ℝ), 0), (0, 0)⟩, ⟨((30 : ℝ), 0), (0, 0)⟩]
      [⟨((8 : ℝ), 0), (0, 0)⟩, ⟨((-18 : ℝ), 0), (0, 0)⟩, ⟨((30 : ℝ), 0), (0, 0)⟩]
      (1, 2) =
      [⟨((8 : ℝ), 0), (0, 0)⟩, ⟨((-18 : ℝ), 0), (0, 0)⟩, ⟨((30 : ℝ), 0), (0, 0)⟩] := by
  simp only [Elastic.stepPairAt, List.getD_cons_zero, List.getD_cons_succ]
  rw [if_neg (by norm_num [Elastic.test_hitR, Elastic.distance_squaredR,
    Elastic.ROCK_BBOX])]

/-- Helper for C3: the full in-place pass on the three resting rocks at
`(0,0)`, `(-10,0)`, `(30,0)`. -/
theorem rr_inplace_eval :
    Elastic.rock_rock_collision
      [⟨((0 : ℝ), 0), (0, 0)⟩, ⟨((-10 : ℝ), 0), (0, 0)⟩, ⟨((30 : ℝ), 0), (0, 0)⟩] =
      [⟨((6 : ℝ), 0), (0, 0)⟩, ⟨((-18 : ℝ), 0), (0, 0)⟩, ⟨((32 : ℝ), 0), (0, 0)⟩] := by
  unfold Elastic.rock_rock_collision
  rw [(by decide : Elastic.pair_indices
    ([⟨((0 : ℝ), 0), (0, 0)⟩, ⟨((-10 : ℝ), 0), (0, 0)⟩,
      ⟨((30 : ℝ), 0), (0, 0)⟩] : List Elastic.RockR).length =
    [(0, 1), (0, 2), (1, 2)])]
  simp only [List.foldl_cons, List.foldl_nil]
  rw [rr_step_one, rr_step_two_inplace, rr_step_three_inplace]

/-- Helper for C3: the full snapshot-pure pass on the same three rocks. -/
theorem rr_spec_eval :
    Elastic.rock_rock_collision_spec
      [⟨((0 : ℝ), 0), (0, 0)⟩, ⟨((-10 : ℝ), 0), (0, 0)⟩, ⟨((30 : ℝ), 0), (0, 0)⟩] =
      [⟨((8 : ℝ), 0), (0, 0)⟩, ⟨((-18 : ℝ), 0), (0, 0)⟩, ⟨((30 : ℝ), 0), (0, 0)⟩] := by
  unfold Elastic.rock_rock_collision_spec
  rw [(by decide : Elastic.pair_indices
    ([⟨((0 : ℝ), 0), (0, 0)⟩, ⟨((-10 : ℝ), 0), (0, 0)⟩,
      ⟨((30 : ℝ), 0), (0, 0)⟩] : List Elastic.RockR).length =
    [(0, 1), (0, 2), (1, 2)])]
  simp only [List.foldl_cons, List.foldl_nil]
  rw [rr_step_one, rr_step_two_spec, rr_step_three_spec]

/-- C3 (corrected): the pass snapshots all rock state into working arrays
before any mutation and writes the entity store back once at the end (in
particular it preserves the rock count), but the working arrays are mutated
in place as pairs are resolved: on the three resting rocks at `(0,0)`,
`(-10,0)`, `(30,0)`, resolving pair `(0,1)` moves rock 0 to `(8,0)`, which
makes the later pair `(0,2)` overlap and be resolved from the mutated
values, ending at `[(6,0), (-18,0), (32,0)]`, whereas updates computed
purely from the pre-pass snapshot would end at `[(8,0), (-18,0), (30,0)]`. -/
theorem C3_inplace_pass_eval :
    (∀ rocks : List Elastic.RockR,
      (Elastic.rock_rock_collision rocks).length = rocks.length) ∧
    Elastic.rock_rock_collision
      [⟨((0 : ℝ), 0), (0, 0)⟩, ⟨((-10 : ℝ), 0), (0, 0)⟩, ⟨((30 : ℝ), 0), (0, 0)⟩] =
      [⟨((6 : ℝ), 0), (0, 0)⟩, ⟨((-18 : ℝ), 0), (0, 0)⟩, ⟨((32 : ℝ), 0), (0, 0)⟩] ∧
    Elastic.rock_rock_collision_spec
      [⟨((0 : ℝ), 0), (0, 0)⟩, ⟨((-10 : ℝ), 0), (0, 0)⟩, ⟨((30 : ℝ), 0), (0, 0)⟩] =
      [⟨((8 : ℝ), 0), (0, 0)⟩, ⟨((-18 : ℝ), 0), (0, 0)⟩, ⟨((30 : ℝ), 0), (0, 0)⟩] :=
  ⟨rock_rock_collision_length, rr_inplace_eval, rr_spec_eval⟩

/-- C3 counterexample: on the explicit three-rock input, the code's pass and
the claimed snapshot-pure pass disagree — resolving pair `(0,1)` does change
the inputs used to detect and resolve pair `(0,2)`. -/
theorem C3_inplace_ne_snapshot :
    Elastic.rock_rock_collision
      [⟨((0 : ℝ), 0), (0, 0)⟩, ⟨((-10 : ℝ), 0), (0, 0)⟩, ⟨((30 : ℝ), 0), (0, 0)⟩] ≠
    Elastic.rock_rock_collision_spec
      [⟨((0 : ℝ), 0), (0, 0)⟩, ⟨((-10 : ℝ), 0), (0, 0)⟩, ⟨((30 : ℝ), 0), (0, 0)⟩] := by
  rw [rr_inplace_eval, rr_spec_eval]
  intro h
  simp only [List.cons.injEq, Elastic.RockR.mk.injEq, Prod.mk.injEq] at h
  norm_num at h

/-- C10 (confirmed): for every resolved pair with distinct centers (the
normal is well defined), the elastic exchange conserves total linear
momentum: the along-normal components are moved between the two rocks, so
the vector sum of the velocities is unchanged. -/
theorem C10_momentum_conserved (a b : Elastic.RockR)
    (_hoverlap : Elastic.test_hitR a.pos Elastic.ROCK_BBOX b.pos Elastic.ROCK_BBOX)
    (_hne : a.pos ≠ b.pos) :
    (Elastic.resolve_rocks a b).1.vel + (Elastic.resolve_rocks a b).2.vel =
      a.vel + b.vel := by
  clear _hoverlap _hne
  obtain ⟨⟨pa1, pa2⟩, ⟨va1, va2⟩⟩ := a
  obtain ⟨⟨pb1, pb2⟩, ⟨vb1, vb2⟩⟩ := b
  simp only [Elastic.resolve_rocks, Elastic.collision_normal, Elastic.normalizeR,
    Elastic.dotR, Prod.mk_sub_mk, Prod.mk_add_mk, Prod.smul_mk, smul_eq_mul,
    Prod.mk.injEq]
  constructor <;> ring

/-- C5 (confirmed): for every overlapping pair of rocks with distinct
centers, the resolution swaps the velocity components along the collision
normal `n = normalize(posA - posB)` (each rock's new along-normal component
is the other's old one), leaves the tangential components (velocity minus
its along-normal projection) unchanged, and repositions the pair
symmetrically about its midpoint with the centers at least
`radius*2 + 1` apart (their distance becomes exactly `2 * MIN_DIST = 26`). -/
theorem C5_elastic_swap_separation (a b : Elastic.RockR)
    (_hoverlap : Elastic.test_hitR a.pos Elastic.ROCK_BBOX b.pos Elastic.ROCK_BBOX)
    (hne : a.pos ≠ b.pos) :
    Elastic.dotR (Elastic.resolve_rocks a b).1.vel (Elastic.collision_normal a b) =
      Elastic.dotR b.vel (Elastic.collision_normal a b) ∧
    Elastic.dotR (Elastic.resolve_rocks a b).2.vel (Elastic.collision_normal a b) =
      Elastic.dotR a.vel (Elastic.collision_normal a b) ∧
    (Elastic.resolve_rocks a b).1.vel -
        Elastic.dotR (Elastic.resolve_rocks a b).1.vel (Elastic.collision_normal a b) •
          Elastic.collision_normal a b =
      a.vel - Elastic.dotR a.vel (Elastic.collision_normal a b) •
          Elastic.collision_normal a b ∧
    (Elastic.resolve_rocks a b).2.vel -
        Elastic.dotR (Elastic.resolve_rocks a b).2.vel (Elastic.collision_normal a b) •
          Elastic.collision_normal a b =
      b.vel - Elastic.dotR b.vel (Elastic.collision_normal a b) •
          Elastic.collision_normal a b ∧
    (Elastic.resolve_rocks a b).1.pos + (Elastic.resolve_rocks a b).2.pos =
      a.pos + b.pos ∧
    Elastic.distance_squaredR (Elastic.resolve_rocks a b).1.pos
        (Elastic.resolve_rocks a b).2.pos ≥ (2 * Elastic.ROCK_BBOX + 1) ^ 2 := by
  clear _hoverlap
  obtain ⟨⟨pa1, pa2⟩, ⟨va1, va2⟩⟩ := a
  obtain ⟨⟨pb1, pb2⟩, ⟨vb1, vb2⟩⟩ := b
  have hne' : ¬ (pa1 = pb1 ∧ pa2 = pb2) := by simpa [Prod.ext_iff] using hne
  have hq : 0 < (pa1 - pb1) * (pa1 - pb1) + (pa2 - pb2) * (pa2 - pb2) := by
    rcases not_and_or.mp hne' with h | h
    · nlinarith [mul_self_pos.mpr (sub_ne_zero.mpr h), mul_self_nonneg (pa2 - pb2)]
    · nlinarith [mul_self_pos.mpr (sub_ne_zero.mpr h), mul_self_nonneg (pa1 - pb1)]
  simp only [Elastic.resolve_rocks, Elastic.collision_normal, Elastic.normalizeR,
    Elastic.dotR, Elastic.distance_squaredR, Elastic.MIN_DIST, Elastic.ROCK_BBOX,
    Prod.mk_sub_mk, Prod.mk_add_mk, Prod.smul_mk, smul_eq_mul, Prod.mk.injEq]
  set s := Real.sqrt ((pa1 - pb1) * (pa1 - pb1) + (pa2 - pb2) * (pa2 - pb2)) with hs
  have hs0 : s ≠ 0 := ne_of_gt (Real.sqrt_pos.mpr hq)
  have hs2 : s * s = (pa1 - pb1) * (pa1 - pb1) + (pa2 - pb2) * (pa2 - pb2) :=
    Real.mul_self_sqrt hq.le
  have hN : (s⁻¹ * (pa1 - pb1)) * (s⁻¹ * (pa1 - pb1)) +
      (s⁻¹ * (pa2 - pb2)) * (s⁻¹ * (pa2 - pb2)) = 1 := by
    field_simp
    linear_combination (-1 : ℝ) * hs2
  refine ⟨?_, ?_, ⟨?_, ?_⟩, ⟨?_, ?_⟩, ⟨by ring, by ring⟩, ?_⟩
  · linear_combination (vb1 * (s⁻¹ * (pa1 - pb1)) + vb2 * (s⁻¹ * (pa2 - pb2)) -
      va1 * (s⁻¹ * (pa1 - pb1)) - va2 * (s⁻¹ * (pa2 - pb2))) * hN
  · linear_combination (va1 * (s⁻¹ * (pa1 - pb1)) + va2 * (s⁻¹ * (pa2 - pb2)) -
      vb1 * (s⁻¹ * (pa1 - pb1)) - vb2 * (s⁻¹ * (pa2 - pb2))) * hN
  · linear_combination ((va1 * (s⁻¹ * (pa1 - pb1)) + va2 * (s⁻¹ * (pa2 - pb2)) -
      vb1 * (s⁻¹ * (pa1 - pb1)) - vb2 * (s⁻¹ * (pa2 - pb2))) *
      (s⁻¹ * (pa1 - pb1))) * hN
  · linear_combination ((va1 * (s⁻¹ * (pa1 - pb1)) + va2 * (s⁻¹ * (pa2 - pb2)) -
      vb1 * (s⁻¹ * (pa1 - pb1)) - vb2 * (s⁻¹ * (pa2 - pb2))) *
      (s⁻¹ * (pa2 - pb2))) * hN
  · linear_combination ((vb1 * (s⁻¹ * (pa1 - pb1)) + vb2 * (s⁻¹ * (pa2 - pb2)) -
      va1 * (s⁻¹ * (pa1 - pb1)) - va2 * (s⁻¹ * (pa2 - pb2))) *
      (s⁻¹ * (pa1 - pb1))) * hN
  · linear_combination ((vb1 * (s⁻¹ * (pa1 - pb1)) + vb2 * (s⁻¹ * (pa2 - pb2)) -
      va1 * (s⁻¹ * (pa1 - pb1)) - va2 * (s⁻¹ * (pa2 - pb2))) *
      (s⁻¹ * (pa2 - pb2))) * hN
  · nlinarith [hN]

/-- C5 witness: the overlapping rocks at `(3, 4)` and `(0, 0)` (distance 5,
within the overlap threshold 24) with velocities `(1, 0)` and `(0, 1)`. -/
theorem C5_elastic_swap_separation_witness :
    Elastic.dotR (Elastic.resolve_rocks ⟨((3 : ℝ), 4), (1, 0)⟩
        ⟨((0 : ℝ), 0), (0, 1)⟩).1.vel
        (Elastic.collision_normal ⟨((3 : ℝ), 4), (1, 0)⟩ ⟨((0 : ℝ), 0), (0, 1)⟩) =
      Elastic.dotR ((0 : ℝ), (1 : ℝ))
        (Elastic.collision_normal ⟨((3 : ℝ), 4), (1, 0)⟩ ⟨((0 : ℝ), 0), (0, 1)⟩) ∧
    Elastic.dotR (Elastic.resolve_rocks ⟨((3 : ℝ), 4), (1, 0)⟩
        ⟨((0 : ℝ), 0), (0, 1)⟩).2.vel
        (Elastic.collision_normal ⟨((3 : ℝ), 4), (1, 0)⟩ ⟨((0 : ℝ), 0), (0, 1)⟩) =
      Elastic.dotR ((1 : ℝ), (0 : ℝ))
        (Elastic.collision_normal ⟨((3 : ℝ), 4), (1, 0)⟩ ⟨((0 : ℝ), 0), (0, 1)⟩) ∧
    (Elastic.resolve_rocks ⟨((3 : ℝ), 4), (1, 0)⟩ ⟨((0 : ℝ), 0), (0, 1)⟩).1.vel -
        Elastic.dotR (Elastic.resolve_rocks ⟨((3 : ℝ), 4), (1, 0)⟩
            ⟨((0 : ℝ), 0), (0, 1)⟩).1.vel
          (Elastic.collision_normal ⟨((3 : ℝ), 4), (1, 0)⟩ ⟨((0 : ℝ), 0), (0, 1)⟩) •
          Elastic.collision_normal ⟨((3 : ℝ), 4), (1, 0)⟩ ⟨((0 : ℝ), 0), (0, 1)⟩ =
      ((1 : ℝ), (0 : ℝ)) - Elastic.dotR ((1 : ℝ), (0 : ℝ))
          (Elastic.collision_normal ⟨((3 : ℝ), 4), (1, 0)⟩ ⟨((0 : ℝ), 0), (0, 1)⟩) •
          Elastic.collision_normal ⟨((3 : ℝ), 4), (1, 0)⟩ ⟨((0 : ℝ), 0), (0, 1)⟩ ∧
    (Elastic.resolve_rocks ⟨((3 : ℝ), 4), (1, 0)⟩ ⟨((0 : ℝ), 0), (0, 1)⟩).2.vel -
        Elastic.dotR (Elastic.resolve_rocks ⟨((3 : ℝ), 4), (1, 0)⟩
            ⟨((0 : ℝ), 0), (0, 1)⟩).2.vel
          (Elastic.collision_normal ⟨((3 : ℝ), 4), (1, 0)⟩ ⟨((0 : ℝ), 0), (0, 1)⟩) •
          Elastic.collision_normal ⟨((3 : ℝ), 4), (1, 0)⟩ ⟨((0 : ℝ), 0), (0, 1)⟩ =
      ((0 : ℝ), (1 : ℝ)) - Elastic.dotR ((0 : ℝ), (1 : ℝ))
          (Elastic.collision_normal ⟨((3 : ℝ), 4), (1, 0)⟩ ⟨((0 : ℝ), 0), (0, 1)⟩) •
          Elastic.collision_normal ⟨((3 : ℝ), 4), (1, 0)⟩ ⟨((0 : ℝ), 0), (0, 1)⟩ ∧
    (Elastic.resolve_rocks ⟨((3 : ℝ), 4), (1, 0)⟩ ⟨((0 : ℝ), 0), (0, 1)⟩).1.pos +
        (Elastic.resolve_rocks ⟨((3 : ℝ), 4), (1, 0)⟩ ⟨((0 : ℝ), 0), (0, 1)⟩).2.pos =
      ((3 : ℝ), (4 : ℝ)) + ((0 : ℝ), (0 : ℝ)) ∧
    Elastic.distance_squaredR
        (Elastic.resolve_rocks ⟨((3 : ℝ), 4), (1, 0)⟩ ⟨((0 : ℝ), 0), (0, 1)⟩).1.pos
        (Elastic.resolve_rocks ⟨((3 : ℝ), 4), (1, 0)⟩ ⟨((0 : ℝ), 0), (0, 1)⟩).2.pos ≥
      (2 * Elastic.ROCK_BBOX + 1) ^ 2 :=
  C5_elastic_swap_separation ⟨((3 : ℝ), 4), (1, 0)⟩ ⟨((0 : ℝ), 0), (0, 1)⟩
    (by norm_num [Elastic.test_hitR, Elastic.distance_squaredR, Elastic.ROCK_BBOX])
    (by norm_num [Prod.ext_iff])

/-- C10 witness: two overlapping rocks with distinct centers. -/
theorem C10_momentum_conserved_witness :
    (Elastic.resolve_rocks ⟨((5 : ℝ), 0), (2, 3)⟩ ⟨((0 : ℝ), 0), (-1, 4)⟩).1.vel +
      (Elastic.resolve_rocks ⟨((5 : ℝ), 0), (2, 3)⟩ ⟨((0 : ℝ), 0), (-1, 4)⟩).2.vel =
      ((2 : ℝ), (3 : ℝ)) + ((-1 : ℝ), (4 : ℝ)) :=
  C10_momentum_conserved ⟨((5 : ℝ), 0), (2, 3)⟩ ⟨((0 : ℝ), 0), (-1, 4)⟩
    (by norm_num [Elastic.test_hitR, Elastic.distance_squaredR, Elastic.ROCK_BBOX])
    (by norm_num [Prod.ext_iff])

/-- Helper for C1/C2: one shot at `(10, 0)` against one rock at `(0, 0)` —
a single overlapping pair, one kill/score increment. -/
theorem rock_shot_pass_one_hit :
    rock_shot_pass [⟨((10 : ℚ), 0), SHOT_BBOX⟩] [⟨((0 : ℚ), 0), ROCK_BBOX⟩] =
      ⟨1, 1, [0], [0]⟩ := by
  have hl : shot_rock_pairs
      ([⟨((10 : ℚ), 0), SHOT_BBOX⟩] : List Actor).length
      ([⟨((0 : ℚ), 0), ROCK_BBOX⟩] : List Actor).length = [(0, 0)] := by decide
  unfold rock_shot_pass
  rw [hl]
  simp only [List.foldl_cons, List.foldl_nil, List.getD_cons_zero]
  rw [if_pos (by norm_num [test_hit, distance_squared, ROCK_BBOX, SHOT_BBOX])]
  simp

/-- Helper for C1/C2: two shots at `(±10, 0)` against the single rock at
`(0, 0)` — both pairs overlap, so the pass queues the rock's despawn twice
and increments the kill count and the score twice for one destroyed rock. -/
theorem rock_shot_pass_two_shots_one_rock :
    rock_shot_pass [⟨((10 : ℚ), 0), SHOT_BBOX⟩, ⟨((-10 : ℚ), 0), SHOT_BBOX⟩]
      [⟨((0 : ℚ), 0), ROCK_BBOX⟩] = ⟨2, 2, [0, 0], [0, 1]⟩ := by
  have hl : shot_rock_pairs
      ([⟨((10 : ℚ), 0), SHOT_BBOX⟩, ⟨((-10 : ℚ), 0), SHOT_BBOX⟩] : List Actor).length
      ([⟨((0 : ℚ), 0), ROCK_BBOX⟩] : List Actor).length = [(0, 0), (1, 0)] := by decide
  unfold rock_shot_pass
  rw [hl]
  simp only [List.foldl_cons, List.foldl_nil, List.getD_cons_zero, List.getD_cons_succ]
  rw [if_pos (by norm_num [test_hit, distance_squared, ROCK_BBOX, SHOT_BBOX]),
    if_pos (by norm_num [test_hit, distance_squared, ROCK_BBOX, SHOT_BBOX])]
  simp

/-- Helper for C1: one shot at `(12, 0)` against rocks at `(0, 0)` and
`(25, 0)` — the shot overlaps both rocks, so both rocks' despawns are queued
and the score is incremented twice for one shot. -/
theorem rock_shot_pass_one_shot_two_rocks :
    rock_shot_pass [⟨((12 : ℚ), 0), SHOT_BBOX⟩]
      [⟨((0 : ℚ), 0), ROCK_BBOX⟩, ⟨((25 : ℚ), 0), ROCK_BBOX⟩] =
      ⟨2, 2, [0, 1], [0, 0]⟩ := by
  have hl : shot_rock_pairs
      ([⟨((12 : ℚ), 0), SHOT_BBOX⟩] : List Actor).length
      ([⟨((0 : ℚ), 0), ROCK_BBOX⟩, ⟨((25 : ℚ), 0), ROCK_BBOX⟩] : List Actor).length =
      [(0, 0), (0, 1)] := by decide
  unfold rock_shot_pass
  rw [hl]
  simp only [List.foldl_cons, List.foldl_nil, List.getD_cons_zero, List.getD_cons_succ]
  rw [if_pos (by norm_num [test_hit, distance_squared, ROCK_BBOX, SHOT_BBOX]),
    if_pos (by norm_num [test_hit, distance_squared, ROCK_BBOX, SHOT_BBOX])]
  simp

/-- C1 (code bug): despawns within the shot-rock pass are deferred commands,
so no entity is excluded from later pair tests in the same tick.  A rock
overlapped by two shots gets the score and kill count incremented twice
(`[0, 0]` — the same rock index despawned twice, one distinct rock), and a
single shot overlapping two rocks destroys both (`[0, 1]` — two distinct
rocks for the one shot), contradicting the claimed at-most-one pairing and
the exactly-once increments. -/
theorem C1_pair_double_count :
    rock_shot_pass [⟨((10 : ℚ), 0), SHOT_BBOX⟩, ⟨((-10 : ℚ), 0), SHOT_BBOX⟩]
        [⟨((0 : ℚ), 0), ROCK_BBOX⟩] = ⟨2, 2, [0, 0], [0, 1]⟩ ∧
    ([0, 0] : List ℕ).dedup.length = 1 ∧
    rock_shot_pass [⟨((12 : ℚ), 0), SHOT_BBOX⟩]
        [⟨((0 : ℚ), 0), ROCK_BBOX⟩, ⟨((25 : ℚ), 0), ROCK_BBOX⟩] =
      ⟨2, 2, [0, 1], [0, 0]⟩ ∧
    ([0, 1] : List ℕ).dedup.length = 2 :=
  ⟨rock_shot_pass_two_shots_one_rock, by decide,
   rock_shot_pass_one_shot_two_rocks, by decide⟩

/-- Helper for C2: a tick whose pass produces a single kill, taken at any
kill count `k` with `k + 1 ≠ 5` (so `next_level` is not triggered at level
`1`, whose `total_rock_count` is `5`). -/
theorem rock_shot_collision_single_kill (k : ℕ) (hk : k + 1 ≠ 5) :
    rock_shot_collision [⟨((10 : ℚ), 0), SHOT_BBOX⟩] [⟨((0 : ℚ), 0), ROCK_BBOX⟩]
      ⟨1, k⟩ = (⟨1, k + 1⟩, false) := by
  unfold rock_shot_collision
  rw [rock_shot_pass_one_hit]
  rw [if_neg (by simpa [Level.total_rock_count] using hk)]

/-- Helper for C2: the tick from kill count `4` with two shots overlapping
the last rock adds `2`, skipping the `rock_kill_count == total_rock_count`
equality, so `next_level` is not triggered. -/
theorem rock_shot_collision_overshoot :
    rock_shot_collision [⟨((10 : ℚ), 0), SHOT_BBOX⟩, ⟨((-10 : ℚ), 0), SHOT_BBOX⟩]
      [⟨((0 : ℚ), 0), ROCK_BBOX⟩] ⟨1, 4⟩ = (⟨1, 6⟩, false) := by
  unfold rock_shot_collision
  rw [rock_shot_pass_two_shots_one_rock]
  rw [if_neg (by simp [Level.total_rock_count])]
  decide

/-- C2 (code bug): the wave-controller counters can reach a state with
`rock_kill_count > total_rock_count`.  From the post-`setup` state
`⟨level 1, kills 0⟩`, four ticks each destroying one rock reach
`⟨1, 4⟩`; a tick in which the two live shots both overlap the remaining
rock then increments the kill count by `2` to `6 > 5`, and because the
wave-clear test is the equality `rock_kill_count == total_rock_count`
(skipped over), `next_level` is never triggered. -/
theorem C2_kill_count_overflow :
    Reach ⟨1, 6⟩ ∧
    rock_shot_collision [⟨((10 : ℚ), 0), SHOT_BBOX⟩, ⟨((-10 : ℚ), 0), SHOT_BBOX⟩]
      [⟨((0 : ℚ), 0), ROCK_BBOX⟩] ⟨1, 4⟩ = (⟨1, 6⟩, false) ∧
    Level.total_rock_count ⟨1, 6⟩ < (⟨1, 6⟩ : Level).rock_kill_count := by
  have cS1 : ∀ s ∈ ([⟨((10 : ℚ), 0), SHOT_BBOX⟩] : List Actor),
      s.bbox_size = SHOT_BBOX := by simp
  have cS2 : ∀ s ∈ ([⟨((10 : ℚ), 0), SHOT_BBOX⟩, ⟨((-10 : ℚ), 0), SHOT_BBOX⟩] :
      List Actor), s.bbox_size = SHOT_BBOX := by simp
  have cR : ∀ r ∈ ([⟨((0 : ℚ), 0), ROCK_BBOX⟩] : List Actor),
      r.bbox_size = ROCK_BBOX := by simp
  have step1 : ∀ k : ℕ, k + 1 ≠ 5 → Reach ⟨1, k⟩ → Reach ⟨1, k + 1⟩ := by
    intro k hk h
    have h' := Reach.step _ _ _ cS1 cR h
    rwa [rock_shot_collision_single_kill k hk] at h'
  have h4 : Reach ⟨1, 4⟩ :=
    step1 3 (by decide) (step1 2 (by decide) (step1 1 (by decide)
      (step1 0 (by decide) Reach.init)))
  have h6 : Reach ⟨1, 6⟩ := by
    have h' := Reach.step _ _ _ cS2 cR h4
    rwa [rock_shot_collision_overshoot] at h'
  exact ⟨h6, rock_shot_collision_overshoot, by decide⟩

/-- C8 witness: `last = 0`, attempts at `t0 = 501`, `t1 = 900` (within the
window opened at `t0`), `t2 = 1101` (after it). -/
theorem C8_cooldown_gate_witness :
    (∀ l n, ((try_fire l n).1 = true ↔ n - l > PLAYER_SHOT_TIME) ∧
      ((try_fire l n).1 = true → (try_fire l n).2 = n) ∧
      ((try_fire l n).1 = false → (try_fire l n).2 = l)) ∧
    (try_fire 0 501).1 = true ∧
    (try_fire (try_fire 0 501).2 900).1 = false ∧
    (try_fire (try_fire (try_fire 0 501).2 900).2 1101).1 = true :=
  C8_cooldown_gate 0 501 900 1101 (by decide) (by decide) (by decide)

end Bastro
